import Mathlib

/-!
Verification of the financial core of `streamlit_app.py`: the tiered
real-estate excise tax (`calculate_reet`), the mortgage annuity payment
(`calculate_mortgage_payment`), the amortization schedule
(`calculate_mortgage_schedule`), and the two scenario simulators
(`simulate_stay_full`, `simulate_home_ownership`).

Embedding conventions:
* Python floats are modelled by exact rationals (ℚ).
* A Python expression that raises (`ZeroDivisionError` from `x / 0`, or
  `IndexError` from `.values[0]` on an empty selection) is modelled by
  `Option`: `none` means the call raises instead of returning a value.
* `round(tax, 2)` is modelled by `roundTwo`, round-half-to-even at the
  second decimal, matching Python's banker's rounding.
* The unbounded upper limit `float('inf')` of the last tax bracket is
  modelled by `none` in the bracket table: no finite price exceeds it.
-/

/-- Round-half-to-even to the nearest integer, as Python's `round`. -/
def roundHalfEven (x : ℚ) : ℤ :=
  let f := ⌊x⌋
  if x - f < 1/2 then f
  else if 1/2 < x - f then f + 1
  else if f % 2 = 0 then f else f + 1

/-- `round(x, 2)` from Python: round-half-even at two decimal places. -/
def roundTwo (x : ℚ) : ℚ :=
  (roundHalfEven (x * 100) : ℚ) / 100

/-- The bracket table of `calculate_reet`, line 10: upper limit (with
`none` for `float('inf')`) and marginal rate. -/
def reetBrackets : List (Option ℚ × ℚ) :=
  [(some 525000, 11/1000), (some 1525000, 128/10000),
   (some 3025000, 275/10000), (none, 30/1000)]

/-- The `for limit, rate in brackets` loop of `calculate_reet`,
lines 12-18: carries the accumulated `tax` and `prev_limit`; a `none`
limit (`float('inf')`) makes `purchase_price > limit` false, so the loop
always takes the `else` branch and stops there. -/
def reetLoop : List (Option ℚ × ℚ) → ℚ → ℚ → ℚ → ℚ
  | [], _, tax, _ => tax
  | (limit, rate) :: rest, purchase_price, tax, prev_limit =>
    match limit with
    | some l =>
      if purchase_price > l then
        reetLoop rest purchase_price (tax + (l - prev_limit) * rate) l
      else
        tax + (purchase_price - prev_limit) * rate
    | none => tax + (purchase_price - prev_limit) * rate

/-- `calculate_reet`, lines 9-19: tiered excise tax rounded to 2 dp. -/
def calculate_reet (purchase_price : ℚ) : ℚ :=
  roundTwo (reetLoop reetBrackets purchase_price 0 0)

/-- `calculate_mortgage_payment`, lines 21-24:
`loan * mr / (1 - (1 + mr) ** -n)`.  `none` models the Python
`ZeroDivisionError`: `0.0 ** -n` with `n > 0` raises, and so does the
division when the denominator is `0` (e.g. at `annual_rate = 0`). -/
def calculate_mortgage_payment (loan_amount annual_rate : ℚ) (term_years : ℕ) : Option ℚ :=
  let monthly_rate := annual_rate / 12
  let n_payments : ℤ := (term_years : ℤ) * 12
  if 1 + monthly_rate = 0 ∧ n_payments ≠ 0 then none
  else
    let denom := 1 - (1 + monthly_rate) ^ (-n_payments)
    if denom = 0 then none else some (loan_amount * monthly_rate / denom)

/-- One row of the schedule dataframe built on lines 35-40. -/
structure AmortEntry where
  month : ℕ
  interest : ℚ
  principal : ℚ
  balance : ℚ
deriving DecidableEq, Repr

/-- The `for month in range(1, n_payments + 1)` loop of
`calculate_mortgage_schedule`, lines 31-40: `k` months remain, `m` is the
next month index, `bal` the running balance. -/
def scheduleFrom (monthly_rate monthly_payment : ℚ) : ℕ → ℕ → ℚ → List AmortEntry
  | 0, _, _ => []
  | k + 1, m, bal =>
    let interest_payment := bal * monthly_rate
    let principal_payment := monthly_payment - interest_payment
    let balance := bal - principal_payment
    ⟨m, interest_payment, principal_payment, balance⟩ ::
      scheduleFrom monthly_rate monthly_payment k (m + 1) balance

/-- `calculate_mortgage_schedule`, lines 26-41: computes the fixed payment
once, then the month-by-month rows for months `1..term*12`. -/
def calculate_mortgage_schedule (loan_amount annual_rate : ℚ) (term_years : ℕ) :
    Option (List AmortEntry) :=
  (calculate_mortgage_payment loan_amount annual_rate term_years).map fun monthly_payment =>
    scheduleFrom (annual_rate / 12) monthly_payment (term_years * 12) 1 loan_amount

/-- `schedule[schedule.Month.between((year-1)*12+1, year*12)].Interest.sum()`,
lines 49-50 (pandas `between` is inclusive; the sum of an empty slice is 0). -/
def yearInterest (schedule : List AmortEntry) (year : ℕ) : ℚ :=
  ((schedule.filter fun e =>
      decide ((year - 1) * 12 + 1 ≤ e.month ∧ e.month ≤ year * 12)).map
    AmortEntry.interest).sum

/-- `schedule[schedule.Month == years*12]['Remaining Balance'].values[0]`,
lines 56 and 78: first matching row's balance; `none` models the
`IndexError` raised when no row matches. -/
def balanceLookup (schedule : List AmortEntry) (targetMonth : ℕ) : Option ℚ :=
  (schedule.find? fun e => e.month == targetMonth).map AmortEntry.balance

/-- One iteration of the `for year in range(1, years + 1)` loop of
`simulate_stay_full`, lines 48-54. -/
def stayYearCashFlow (schedule : List AmortEntry)
    (monthly_pmt annual_tax monthly_ins tax_rate : ℚ) (year : ℕ) : ℚ :=
  let interest := yearInterest schedule year
  let mortgage_interest_deduction := interest * tax_rate
  let annual_piti := (monthly_pmt + annual_tax / 12 + monthly_ins) * 12
  let net_cash_flow := -annual_piti + mortgage_interest_deduction
  net_cash_flow

/-- `simulate_stay_full`, lines 43-59. -/
def simulate_stay_full (home_value mortgage_balance rate : ℚ) (term_remaining : ℕ)
    (annual_tax monthly_ins appreciation_rate tax_rate : ℚ) (years : ℕ) :
    Option (List ℚ) :=
  (calculate_mortgage_payment mortgage_balance rate term_remaining).bind fun monthly_pmt =>
  (calculate_mortgage_schedule mortgage_balance rate term_remaining).bind fun schedule =>
  let yearly := (List.range years).map
    (fun i => stayYearCashFlow schedule monthly_pmt annual_tax monthly_ins tax_rate (i + 1))
  let appreciated_value := home_value * (1 + appreciation_rate) ^ years
  (balanceLookup schedule (years * 12)).bind fun remaining_balance =>
  let net_sale_proceeds :=
    appreciated_value - remaining_balance - calculate_reet appreciated_value
  some (-600000 :: (yearly ++ [net_sale_proceeds]))

/-- One iteration of the `for _ in range(years)` loop of
`simulate_home_ownership`, lines 74-76. -/
def buyYearCashFlow (monthly_pmt tax ins annual_tax_savings : ℚ) : ℚ :=
  let annual_piti := (monthly_pmt + tax + ins) * 12
  let net_cash_flow := -annual_piti + annual_tax_savings
  net_cash_flow

/-- `simulate_home_ownership`, lines 61-81.  `existing_mortgage`,
`existing_rate` and `existing_term` are accepted but, as in the source,
never used. -/
def simulate_home_ownership (purchase_price equity existing_mortgage existing_rate : ℚ)
    (existing_term : ℕ) (rate : ℚ) (term_years : ℕ) (tax ins down_pct appreciation tax_rate : ℚ)
    (years : ℕ) : Option (List ℚ) :=
  let down_payment := purchase_price * down_pct
  let loan_amount := purchase_price - down_payment
  (calculate_mortgage_payment loan_amount rate term_years).bind fun monthly_pmt =>
  (calculate_mortgage_schedule loan_amount rate term_years).bind fun schedule =>
  let reet := calculate_reet purchase_price
  let closing_costs := purchase_price * (15/1000)
  let net_proceeds := equity
  let deductible_interest := min 750000 loan_amount * rate
  let annual_tax_savings := deductible_interest * tax_rate
  let yearly := (List.range years).map
    (fun _ => buyYearCashFlow monthly_pmt tax ins annual_tax_savings)
  let appreciated_value := purchase_price * (1 + appreciation) ^ years
  (balanceLookup schedule (years * 12)).bind fun remaining_balance =>
  let net_sale_proceeds :=
    appreciated_value - remaining_balance - calculate_reet appreciated_value
  some ((net_proceeds - down_payment - closing_costs - reet) :: (yearly ++ [net_sale_proceeds]))

/-- C1 counterexample: at a price of 1,000,000 the tax is not 11,825. -/
theorem c1_reet_1000000_ne_11825 : calculate_reet 1000000 ≠ 11825 := by
  norm_num [calculate_reet, reetLoop, reetBrackets, roundTwo, roundHalfEven]

/-- C1 (amended): `calculate_reet 1000000` equals
`525000*0.011 + 475000*0.0128`, i.e. 11,855. -/
theorem c1_reet_1000000_value :
    calculate_reet 1000000 = 525000 * (11/1000) + 475000 * (128/10000) := by
  norm_num [calculate_reet, reetLoop, reetBrackets, roundTwo, roundHalfEven]

/-- C2 counterexample: at zero annual rate the payment call does not
return `loan / (termYears*12)`; it fails. -/
theorem c2_zero_rate_payment_cex :
    calculate_mortgage_payment 1200 0 10 ≠ some (1200 / (10 * 12)) := by
  norm_num [calculate_mortgage_payment]
  simp

/-- C2 (amended): for every loan amount and term, an annual rate of
exactly 0 makes the annuity denominator `1 - (1+0)^(-n)` equal to 0, and
the payment computation fails with a division-by-zero error instead of
returning `loan / (termYears*12)`. -/
theorem c2_zero_rate_payment_fails (loan_amount : ℚ) (term_years : ℕ) :
    calculate_mortgage_payment loan_amount 0 term_years = none := by
  simp [calculate_mortgage_payment]

/-! Helper lemmas: rounding. -/

theorem roundHalfEven_le (x : ℚ) : roundHalfEven x ≤ ⌊x⌋ + 1 := by
  simp only [roundHalfEven]
  split_ifs <;> omega

theorem le_roundHalfEven (x : ℚ) : ⌊x⌋ ≤ roundHalfEven x := by
  simp only [roundHalfEven]
  split_ifs <;> omega

theorem roundHalfEven_mono {x y : ℚ} (h : x ≤ y) : roundHalfEven x ≤ roundHalfEven y := by
  have hf : ⌊x⌋ ≤ ⌊y⌋ := Int.floor_mono h
  rcases eq_or_lt_of_le hf with heq | hlt
  · simp only [roundHalfEven]
    rw [← heq]
    split_ifs <;> first | omega | (exfalso; linarith)
  · calc roundHalfEven x ≤ ⌊x⌋ + 1 := roundHalfEven_le x
      _ ≤ ⌊y⌋ := by omega
      _ ≤ roundHalfEven y := le_roundHalfEven y

theorem roundTwo_mono {x y : ℚ} (h : x ≤ y) : roundTwo x ≤ roundTwo y := by
  unfold roundTwo
  have h100 : x * 100 ≤ y * 100 := by linarith
  have := roundHalfEven_mono h100
  have hc : ((roundHalfEven (x * 100) : ℚ)) ≤ ((roundHalfEven (y * 100) : ℚ)) :=
    Int.cast_le.mpr this
  linarith

theorem roundTwo_nonpos {x : ℚ} (h : x < 0) : roundTwo x ≤ 0 := by
  have hfl : ⌊x * 100⌋ < 0 := Int.floor_lt.mpr (by push_cast; linarith)
  have h1 : roundHalfEven (x * 100) ≤ ⌊x * 100⌋ + 1 := roundHalfEven_le _
  have h2 : ((roundHalfEven (x * 100) : ℚ)) ≤ 0 := by
    have : roundHalfEven (x * 100) ≤ 0 := by omega
    exact_mod_cast this
  unfold roundTwo
  linarith

/-! Helper lemmas: the amortization recurrence. -/

/-- The running balance after `k` months of the schedule loop. -/
def balIter (monthly_rate monthly_payment : ℚ) : ℕ → ℚ → ℚ
  | 0, bal => bal
  | k + 1, bal =>
    balIter monthly_rate monthly_payment k (bal - (monthly_payment - bal * monthly_rate))

theorem balIter_mul (mr pmt : ℚ) :
    ∀ (k : ℕ) (b : ℚ),
      mr * balIter mr pmt k b = mr * b * (1 + mr) ^ k - pmt * ((1 + mr) ^ k - 1) := by
  intro k
  induction k with
  | zero => intro b; simp [balIter]
  | succ n ih =>
    intro b
    rw [balIter, ih]
    ring

theorem scheduleFrom_length (mr pmt : ℚ) :
    ∀ (k m : ℕ) (b : ℚ), (scheduleFrom mr pmt k m b).length = k := by
  intro k
  induction k with
  | zero => intro m b; rfl
  | succ n ih => intro m b; rw [scheduleFrom]; simp [ih]

theorem scheduleFrom_sum_principal (mr pmt : ℚ) :
    ∀ (k m : ℕ) (b : ℚ),
      ((scheduleFrom mr pmt k m b).map AmortEntry.principal).sum = b - balIter mr pmt k b := by
  intro k
  induction k with
  | zero => intro m b; simp [scheduleFrom, balIter]
  | succ n ih =>
    intro m b
    rw [scheduleFrom, balIter]
    simp only [List.map_cons, List.sum_cons, ih]
    ring

theorem scheduleFrom_getLast_balance (mr pmt : ℚ) :
    ∀ (k m : ℕ) (b : ℚ),
      ((scheduleFrom mr pmt (k + 1) m b).getLast?).map AmortEntry.balance =
        some (balIter mr pmt (k + 1) b) := by
  intro k
  induction k with
  | zero =>
    intro m b
    rw [scheduleFrom, scheduleFrom, balIter, balIter]
    rfl
  | succ n ih =>
    intro m b
    rw [scheduleFrom, scheduleFrom, List.getLast?_cons_cons, ← scheduleFrom, balIter]
    exact ih (m + 1) (b - (pmt - b * mr))

theorem scheduleFrom_row_sum (mr pmt : ℚ) :
    ∀ (k m : ℕ) (b : ℚ), ∀ e ∈ scheduleFrom mr pmt k m b, e.interest + e.principal = pmt := by
  intro k
  induction k with
  | zero => intro m b e he; simp [scheduleFrom] at he
  | succ n ih =>
    intro m b e he
    rw [scheduleFrom] at he
    rcases List.mem_cons.mp he with rfl | htail
    · show b * mr + (pmt - b * mr) = pmt
      ring
    · exact ih (m + 1) _ e htail

theorem scheduleFrom_month_lt (mr pmt : ℚ) :
    ∀ (k m : ℕ) (b : ℚ), ∀ e ∈ scheduleFrom mr pmt k m b, e.month < m + k := by
  intro k
  induction k with
  | zero => intro m b e he; simp [scheduleFrom] at he
  | succ n ih =>
    intro m b e he
    rw [scheduleFrom] at he
    rcases List.mem_cons.mp he with rfl | htail
    · show m < m + (n + 1)
      omega
    · have := ih (m + 1) _ e htail
      omega

theorem scheduleFrom_chain (mr pmt : ℚ) (hmr : 0 < mr) :
    ∀ (k m : ℕ) (b : ℚ), 0 < pmt - b * mr →
      List.Chain (fun a c => c < a) b ((scheduleFrom mr pmt k m b).map AmortEntry.balance) := by
  intro k
  induction k with
  | zero => intro m b _; simp [scheduleFrom]
  | succ n ih =>
    intro m b h
    rw [scheduleFrom]
    simp only [List.map_cons]
    refine List.Chain.cons (by linarith) (ih (m + 1) _ ?_)
    have hexp : pmt - (b - (pmt - b * mr)) * mr = (1 + mr) * (pmt - b * mr) := by ring
    rw [hexp]
    have h1 : (0 : ℚ) < 1 + mr := by linarith
    exact mul_pos h1 h

/-! Helper lemmas: the annuity payment at a positive rate. -/

theorem calculate_mortgage_payment_eq (L r : ℚ) (t : ℕ) (hr : 0 < r) (ht : 1 ≤ t) :
    calculate_mortgage_payment L r t =
      some (L * (r / 12) * (1 + r / 12) ^ (t * 12) / ((1 + r / 12) ^ (t * 12) - 1)) := by
  have hmr : (0 : ℚ) < r / 12 := by positivity
  have hq1 : (1 : ℚ) < 1 + r / 12 := by linarith
  have hqn : (1 : ℚ) < (1 + r / 12) ^ (t * 12) := one_lt_pow₀ hq1 (by omega)
  have hqn0 : ((1 + r / 12) ^ (t * 12) : ℚ) ≠ 0 := by positivity
  have hzpow : (1 + r / 12) ^ (-((t : ℤ) * 12)) = (((1 + r / 12) ^ (t * 12) : ℚ))⁻¹ := by
    rw [show -((t : ℤ) * 12) = -((t * 12 : ℕ) : ℤ) by push_cast; ring, zpow_neg, zpow_natCast]
  have hinv : (((1 + r / 12) ^ (t * 12) : ℚ))⁻¹ < 1 := inv_lt_one_of_one_lt₀ hqn
  have hdenom : 1 - (((1 + r / 12) ^ (t * 12) : ℚ))⁻¹ ≠ 0 := sub_ne_zero.mpr hinv.ne'
  simp only [calculate_mortgage_payment]
  rw [if_neg (by rintro ⟨h1, _⟩; linarith)]
  rw [hzpow, if_neg hdenom]
  congr 1
  rw [show 1 - (((1 + r / 12) ^ (t * 12) : ℚ))⁻¹ =
      ((1 + r / 12) ^ (t * 12) - 1) / (1 + r / 12) ^ (t * 12) by field_simp]
  rw [div_div_eq_mul_div]

theorem calculate_mortgage_schedule_eq (L r : ℚ) (t : ℕ) (pmt : ℚ)
    (hp : calculate_mortgage_payment L r t = some pmt) :
    calculate_mortgage_schedule L r t = some (scheduleFrom (r / 12) pmt (t * 12) 1 L) := by
  simp only [calculate_mortgage_schedule]
  rw [hp, Option.map_some']

theorem balIter_final (L r : ℚ) (t : ℕ) (hr : 0 < r) (ht : 1 ≤ t) :
    balIter (r / 12) (L * (r / 12) * (1 + r / 12) ^ (t * 12) / ((1 + r / 12) ^ (t * 12) - 1))
      (t * 12) L = 0 := by
  have hmr : (0 : ℚ) < r / 12 := by positivity
  have hqn : (1 : ℚ) < (1 + r / 12) ^ (t * 12) := one_lt_pow₀ (by linarith) (by omega)
  have hsub : ((1 + r / 12) ^ (t * 12) - 1 : ℚ) ≠ 0 := sub_ne_zero.mpr hqn.ne'
  have h := balIter_mul (r / 12)
    (L * (r / 12) * (1 + r / 12) ^ (t * 12) / ((1 + r / 12) ^ (t * 12) - 1)) (t * 12) L
  rw [div_mul_cancel₀ _ hsub] at h
  have h0 : (r / 12) *
      balIter (r / 12)
        (L * (r / 12) * (1 + r / 12) ^ (t * 12) / ((1 + r / 12) ^ (t * 12) - 1)) (t * 12) L
      = 0 := by
    rw [h]; ring
  exact (mul_eq_zero.mp h0).resolve_left (ne_of_gt hmr)

theorem payment_gt_interest (L r : ℚ) (t : ℕ) (hL : 0 < L) (hr : 0 < r) (ht : 1 ≤ t) :
    0 < L * (r / 12) * (1 + r / 12) ^ (t * 12) / ((1 + r / 12) ^ (t * 12) - 1)
        - L * (r / 12) := by
  have hmr : (0 : ℚ) < r / 12 := by positivity
  have hqn : (1 : ℚ) < (1 + r / 12) ^ (t * 12) := one_lt_pow₀ (by linarith) (by omega)
  have hsub : ((1 + r / 12) ^ (t * 12) - 1 : ℚ) ≠ 0 := sub_ne_zero.mpr hqn.ne'
  have hkey : L * (r / 12) * (1 + r / 12) ^ (t * 12) / ((1 + r / 12) ^ (t * 12) - 1)
      - L * (r / 12) = L * (r / 12) / ((1 + r / 12) ^ (t * 12) - 1) := by
    rw [eq_div_iff hsub, sub_mul, div_mul_cancel₀ _ hsub]
    ring
  rw [hkey]
  exact div_pos (mul_pos hL hmr) (by linarith)

theorem scheduleFrom_head (mr pmt : ℚ) (k m : ℕ) (b : ℚ) :
    ((scheduleFrom mr pmt (k + 1) m b).head?).map (fun e => e.balance + e.principal)
      = some b := by
  rw [scheduleFrom]
  simp only [List.head?_cons, Option.map_some']
  congr 1
  ring

/-! Helper lemmas: monotonicity of the tax loop, simulator reductions. -/

theorem reetLoop_mono {p q : ℚ} (hpq : p ≤ q) :
    reetLoop reetBrackets p 0 0 ≤ reetLoop reetBrackets q 0 0 := by
  simp only [reetBrackets, reetLoop]
  split_ifs <;> linarith

theorem balanceLookup_miss (mr pmt b : ℚ) (t y : ℕ) (h : t < y) :
    balanceLookup (scheduleFrom mr pmt (t * 12) 1 b) (y * 12) = none := by
  have hnone : (scheduleFrom mr pmt (t * 12) 1 b).find? (fun e => e.month == y * 12)
      = none := by
    rw [List.find?_eq_none]
    intro e he
    have hm := scheduleFrom_month_lt mr pmt (t * 12) 1 b e he
    simp only [beq_iff_eq]
    omega
  unfold balanceLookup
  rw [hnone]
  rfl

theorem simulate_stay_full_shape (hv mb r : ℚ) (term : ℕ) (atax mi ar tr : ℚ) (years : ℕ)
    (cf : List ℚ) (h : simulate_stay_full hv mb r term atax mi ar tr years = some cf) :
    ∃ pmt rb,
      calculate_mortgage_payment mb r term = some pmt ∧
      balanceLookup (scheduleFrom (r / 12) pmt (term * 12) 1 mb) (years * 12) = some rb ∧
      cf = -600000 ::
        ((List.range years).map (fun i =>
            stayYearCashFlow (scheduleFrom (r / 12) pmt (term * 12) 1 mb)
              pmt atax mi tr (i + 1)) ++
         [hv * (1 + ar) ^ years - rb - calculate_reet (hv * (1 + ar) ^ years)]) := by
  cases hp : calculate_mortgage_payment mb r term with
  | none =>
    simp only [simulate_stay_full, calculate_mortgage_schedule, hp, Option.map_none',
      Option.none_bind] at h
    exact Option.noConfusion h
  | some pmt =>
    simp only [simulate_stay_full, calculate_mortgage_schedule, hp, Option.map_some',
      Option.some_bind] at h
    cases hb : balanceLookup (scheduleFrom (r / 12) pmt (term * 12) 1 mb) (years * 12) with
    | none => rw [hb] at h; simp at h
    | some rb =>
      rw [hb] at h
      simp only [Option.some_bind, Option.some.injEq] at h
      exact ⟨pmt, rb, rfl, hb, h.symm⟩

theorem simulate_home_ownership_shape (price equity em er : ℚ) (et : ℕ) (nr : ℚ)
    (nterm : ℕ) (tax ins dp ap tr2 : ℚ) (years : ℕ) (cf : List ℚ)
    (h : simulate_home_ownership price equity em er et nr nterm tax ins dp ap tr2 years
        = some cf) :
    ∃ pmt rb,
      calculate_mortgage_payment (price - price * dp) nr nterm = some pmt ∧
      balanceLookup (scheduleFrom (nr / 12) pmt (nterm * 12) 1 (price - price * dp))
        (years * 12) = some rb ∧
      cf = (equity - price * dp - price * (15/1000) - calculate_reet price) ::
        ((List.range years).map (fun _ =>
            buyYearCashFlow pmt tax ins (min 750000 (price - price * dp) * nr * tr2)) ++
         [price * (1 + ap) ^ years - rb - calculate_reet (price * (1 + ap) ^ years)]) := by
  cases hp : calculate_mortgage_payment (price - price * dp) nr nterm with
  | none =>
    simp only [simulate_home_ownership, calculate_mortgage_schedule, hp, Option.map_none',
      Option.none_bind] at h
    exact Option.noConfusion h
  | some pmt =>
    simp only [simulate_home_ownership, calculate_mortgage_schedule, hp, Option.map_some',
      Option.some_bind] at h
    cases hb : balanceLookup (scheduleFrom (nr / 12) pmt (nterm * 12) 1 (price - price * dp))
        (years * 12) with
    | none => rw [hb] at h; simp at h
    | some rb =>
      rw [hb] at h
      simp only [Option.some_bind, Option.some.injEq] at h
      exact ⟨pmt, rb, rfl, hb, h.symm⟩

/-- C8: for non-negative prices `p1 < p2`, `calculate_reet p1 ≤ calculate_reet p2`:
the tiered tax is monotone, including across bracket boundaries and after
the final rounding to two decimal places. -/
theorem c8_reet_monotone (p1 p2 : ℚ) (h0 : 0 ≤ p1) (h12 : p1 < p2) :
    calculate_reet p1 ≤ calculate_reet p2 := by
  unfold calculate_reet
  exact roundTwo_mono (reetLoop_mono (le_of_lt h12))

/-- C8 witness: `calculate_reet` is monotone on the pair (0, 1). -/
theorem c8_reet_monotone_witness : calculate_reet 0 ≤ calculate_reet 1 :=
  c8_reet_monotone 0 1 (by norm_num) (by norm_num)

/-- C9 counterexample: the negative price -100 is not rejected;
`calculate_reet` returns the garbage negative tax -1.10. -/
theorem c9_negative_price_cex :
    calculate_reet (-100) = -11/10 ∧ calculate_reet (-100) < 0 := by
  constructor
  · norm_num [calculate_reet, reetLoop, reetBrackets, roundTwo, roundHalfEven]
  · norm_num [calculate_reet, reetLoop, reetBrackets, roundTwo, roundHalfEven]

/-- C9 (amended): invalid numeric input is not rejected: a negative price
is accepted by `calculate_reet`, which extrapolates the first bracket's
rate and returns a non-positive tax instead of failing fast. -/
theorem c9_invalid_inputs_amended (p : ℚ) (hp : p < 0) :
    calculate_reet p = roundTwo (p * (11/1000)) ∧ calculate_reet p ≤ 0 := by
  have hloop : reetLoop reetBrackets p 0 0 = p * (11/1000) := by
    simp only [reetBrackets, reetLoop]
    rw [if_neg (by intro hgt; linarith)]
    ring
  constructor
  · simp only [calculate_reet, hloop]
  · simp only [calculate_reet, hloop]
    exact roundTwo_nonpos (mul_neg_of_neg_of_pos hp (by norm_num))

/-- C9 witness: the amended statement at the concrete price -100. -/
theorem c9_invalid_inputs_amended_witness :
    calculate_reet (-100) = roundTwo ((-100) * (11/1000)) ∧ calculate_reet (-100) ≤ 0 :=
  c9_invalid_inputs_amended (-100) (by norm_num)

/-- C10: `simulate_home_ownership` is independent of its existing-mortgage
arguments: two calls differing only in `existing_mortgage`, `existing_rate`
or `existing_term` return identical cash-flow sequences. -/
theorem c10_buy_ignores_existing_mortgage
    (purchase_price equity em1 er1 : ℚ) (et1 : ℕ) (em2 er2 : ℚ) (et2 : ℕ)
    (rate : ℚ) (term_years : ℕ) (tax ins down_pct appreciation tax_rate : ℚ) (years : ℕ) :
    simulate_home_ownership purchase_price equity em1 er1 et1 rate term_years tax ins
        down_pct appreciation tax_rate years =
      simulate_home_ownership purchase_price equity em2 er2 et2 rate term_years tax ins
        down_pct appreciation tax_rate years := rfl

/-- C5: with positive loan, positive rate and a term of at least one year,
the schedule's principal payments sum to exactly the loan amount and the
final month's remaining balance is exactly zero (exact arithmetic). -/
theorem c5_schedule_totals (L r : ℚ) (t : ℕ) (sched : List AmortEntry)
    (hL : 0 < L) (hr : 0 < r) (ht : 1 ≤ t)
    (hs : calculate_mortgage_schedule L r t = some sched) :
    (sched.map AmortEntry.principal).sum = L ∧
      (sched.getLast?).map AmortEntry.balance = some 0 := by
  have hp := calculate_mortgage_payment_eq L r t hr ht
  have hsched := calculate_mortgage_schedule_eq L r t _ hp
  rw [hs] at hsched
  obtain rfl := Option.some.inj hsched
  constructor
  · rw [scheduleFrom_sum_principal, balIter_final L r t hr ht, sub_zero]
  · obtain ⟨k, hk⟩ : ∃ k, t * 12 = k + 1 := ⟨t * 12 - 1, by omega⟩
    rw [hk, scheduleFrom_getLast_balance, ← hk, balIter_final L r t hr ht]

/-- C6: with positive loan, positive rate and a term of at least one year,
every schedule row satisfies `interest + principal = fixed payment`, the
balance before month 1 (first row's balance plus its principal) equals the
loan amount, and the recorded balances are strictly decreasing, starting
strictly below the loan amount. -/
theorem c6_schedule_invariants (L r : ℚ) (t : ℕ) (pmt : ℚ) (sched : List AmortEntry)
    (hL : 0 < L) (hr : 0 < r) (ht : 1 ≤ t)
    (hp : calculate_mortgage_payment L r t = some pmt)
    (hs : calculate_mortgage_schedule L r t = some sched) :
    (∀ e ∈ sched, e.interest + e.principal = pmt) ∧
      ((sched.head?).map (fun e => e.balance + e.principal) = some L) ∧
      List.Chain (fun a b => b < a) L (sched.map AmortEntry.balance) := by
  have hpe := calculate_mortgage_payment_eq L r t hr ht
  rw [hp] at hpe
  obtain rfl := Option.some.inj hpe
  have hsched := calculate_mortgage_schedule_eq L r t _ hp
  rw [hs] at hsched
  obtain rfl := Option.some.inj hsched
  refine ⟨scheduleFrom_row_sum _ _ _ _ _, ?_, ?_⟩
  · obtain ⟨k, hk⟩ : ∃ k, t * 12 = k + 1 := ⟨t * 12 - 1, by omega⟩
    rw [hk]
    exact scheduleFrom_head _ _ _ _ _
  · exact scheduleFrom_chain _ _ (by positivity) _ _ _ (payment_gt_interest L r t hL hr ht)

/-- C3: whenever a simulator returns a cash-flow sequence, that sequence
has length exactly `years + 2` (upfront entry, one entry per holding year,
terminal sale-proceeds entry). -/
theorem c3_simulators_length
    (hv mb r : ℚ) (term : ℕ) (atax mi ar tr : ℚ)
    (price equity em er : ℚ) (et : ℕ) (nr : ℚ) (nterm : ℕ) (tax ins dp ap tr2 : ℚ)
    (years : ℕ) (cf cf2 : List ℚ)
    (h1 : simulate_stay_full hv mb r term atax mi ar tr years = some cf)
    (h2 : simulate_home_ownership price equity em er et nr nterm tax ins dp ap tr2 years
        = some cf2) :
    cf.length = years + 2 ∧ cf2.length = years + 2 := by
  constructor
  · obtain ⟨pmt, rb, -, -, rfl⟩ := simulate_stay_full_shape _ _ _ _ _ _ _ _ _ _ h1
    simp [List.length_append]
  · obtain ⟨pmt, rb, -, -, rfl⟩ := simulate_home_ownership_shape _ _ _ _ _ _ _ _ _ _ _ _ _ _ h2
    simp [List.length_append]

set_option maxHeartbeats 1000000 in
/-- C3 witness: at concrete inputs with one holding year, both simulators
return sequences of length 3. -/
theorem c3_simulators_length_witness :
    ([-600000, -55887/2, 989/10] : List ℚ).length = 1 + 2 ∧
      ([-215397/50, -49176, 809991/100] : List ℚ).length = 1 + 2 :=
  c3_simulators_length 100 4095 12 1 1200 10 0 (1/2) 8190 0 0 0 0 12 1 1 1 (1/2) 0 0 1
    [-600000, -55887/2, 989/10] [-215397/50, -49176, 809991/100]
    (by norm_num [simulate_stay_full, calculate_mortgage_payment, calculate_mortgage_schedule,
      scheduleFrom, yearInterest, balanceLookup, stayYearCashFlow, calculate_reet, reetLoop,
      reetBrackets, roundTwo, roundHalfEven, List.range_succ, List.filter,
      List.find?_cons_of_pos, List.find?_cons_of_neg])
    (by norm_num [simulate_home_ownership, calculate_mortgage_payment,
      calculate_mortgage_schedule, scheduleFrom, yearInterest, balanceLookup, buyYearCashFlow,
      calculate_reet, reetLoop, reetBrackets, roundTwo, roundHalfEven, List.range_succ,
      List.filter, List.find?_cons_of_pos, List.find?_cons_of_neg])

set_option maxHeartbeats 1000000 in
/-- C4 counterexample: with a 1-year remaining term and a 2-year holding
period the terminal balance lookup has no matching month, and
`simulate_stay_full` fails (the reference raises `IndexError`) instead of
resolving the miss by a defined policy. -/
theorem c4_lookup_miss_cex : simulate_stay_full 100 4095 12 1 0 0 0 0 2 = none := by
  have hp : calculate_mortgage_payment 4095 12 1 = some 4096 := by
    norm_num [calculate_mortgage_payment]
  simp only [simulate_stay_full, calculate_mortgage_schedule, hp, Option.map_some',
    Option.some_bind]
  rw [balanceLookup_miss _ _ _ _ _ (by norm_num : 1 < 2)]
  rfl

/-- C4 (amended): when the holding period exceeds the remaining loan term,
the terminal remaining-balance lookup finds no matching month and each
simulator fails with an index error (returns no result); no fallback
policy is defined. -/
theorem c4_lookup_miss_none
    (hv mb r : ℚ) (term : ℕ) (atax mi ar tr : ℚ)
    (price equity em er : ℚ) (et : ℕ) (nr : ℚ) (nterm : ℕ) (tax ins dp ap tr2 : ℚ)
    (years : ℕ) (h1 : term < years) (h2 : nterm < years) :
    simulate_stay_full hv mb r term atax mi ar tr years = none ∧
      simulate_home_ownership price equity em er et nr nterm tax ins dp ap tr2 years
        = none := by
  constructor
  · cases hp : calculate_mortgage_payment mb r term with
    | none =>
      simp only [simulate_stay_full, calculate_mortgage_schedule, hp, Option.map_none',
        Option.none_bind]
    | some pmt =>
      simp only [simulate_stay_full, calculate_mortgage_schedule, hp, Option.map_some',
        Option.some_bind]
      rw [balanceLookup_miss _ _ _ _ _ h1]
      rfl
  · cases hp : calculate_mortgage_payment (price - price * dp) nr nterm with
    | none =>
      simp only [simulate_home_ownership, calculate_mortgage_schedule, hp, Option.map_none',
        Option.none_bind]
    | some pmt =>
      simp only [simulate_home_ownership, calculate_mortgage_schedule, hp, Option.map_some',
        Option.some_bind]
      rw [balanceLookup_miss _ _ _ _ _ h2]
      rfl

/-- C4 witness: the amended statement at a 1-year term and 2-year holding
period. -/
theorem c4_lookup_miss_none_witness :
    simulate_stay_full 100 4095 12 1 0 0 0 0 2 = none ∧
      simulate_home_ownership 8190 0 0 0 0 12 1 1 1 (1/2) 0 0 2 = none :=
  c4_lookup_miss_none 100 4095 12 1 0 0 0 0 8190 0 0 0 0 12 1 1 1 (1/2) 0 0 2
    (by norm_num) (by norm_num)

/-- C7: the yearly cash-flow entries of `simulate_home_ownership` at
indices `1..years` all equal the constant
`min(750000, loan) * rate * tax_rate - (monthly_payment + tax + ins) * 12`,
computed once from the initial loan terms. -/
theorem c7_buy_yearly_constant
    (price equity em er : ℚ) (et : ℕ) (nr : ℚ) (nterm : ℕ) (tax ins dp ap tr2 : ℚ)
    (years : ℕ) (pmt : ℚ) (cf : List ℚ) (i : ℕ)
    (hp : calculate_mortgage_payment (price - price * dp) nr nterm = some pmt)
    (hs : simulate_home_ownership price equity em er et nr nterm tax ins dp ap tr2 years
        = some cf)
    (h1 : 1 ≤ i) (h2 : i ≤ years) :
    cf.get? i
      = some (min 750000 (price - price * dp) * nr * tr2 - (pmt + tax + ins) * 12) := by
  obtain ⟨pmt2, rb, hp2, -, rfl⟩ := simulate_home_ownership_shape _ _ _ _ _ _ _ _ _ _ _ _ _ _ hs
  rw [hp] at hp2
  obtain rfl := Option.some.inj hp2
  obtain ⟨j, rfl⟩ : ∃ j, i = j + 1 := ⟨i - 1, by omega⟩
  rw [List.get?_cons_succ]
  rw [List.get?_append (by simp only [List.length_map, List.length_range]; omega)]
  rw [List.get?_map, List.get?_range (by omega)]
  simp only [Option.map_some', Option.some.injEq]
  simp only [buyYearCashFlow]
  ring

set_option maxHeartbeats 1000000 in
/-- C7 witness: at concrete inputs, the single yearly entry (index 1)
equals the constant tax-savings-minus-PITI value. -/
theorem c7_buy_yearly_constant_witness :
    ([-215397/50, -49176, 809991/100] : List ℚ).get? 1
      = some (min 750000 (8190 - 8190 * (1/2)) * 12 * 0 - (4096 + 1 + 1) * 12) :=
  c7_buy_yearly_constant 8190 0 0 0 0 12 1 1 1 (1/2) 0 0 1 4096
    [-215397/50, -49176, 809991/100] 1
    (by norm_num [calculate_mortgage_payment])
    (by norm_num [simulate_home_ownership, calculate_mortgage_payment,
      calculate_mortgage_schedule, scheduleFrom, yearInterest, balanceLookup, buyYearCashFlow,
      calculate_reet, reetLoop, reetBrackets, roundTwo, roundHalfEven, List.range_succ,
      List.filter, List.find?_cons_of_pos, List.find?_cons_of_neg])
    (by norm_num) (by norm_num)

set_option maxHeartbeats 1000000 in
/-- C5 witness: the concrete schedule for loan 4095 at annual rate 12 over
1 year has principal payments summing to 4095 and final balance 0. -/
theorem c5_schedule_totals_witness :
    (([⟨1, 4095, 1, 4094⟩, ⟨2, 4094, 2, 4092⟩, ⟨3, 4092, 4, 4088⟩, ⟨4, 4088, 8, 4080⟩,
       ⟨5, 4080, 16, 4064⟩, ⟨6, 4064, 32, 4032⟩, ⟨7, 4032, 64, 3968⟩, ⟨8, 3968, 128, 3840⟩,
       ⟨9, 3840, 256, 3584⟩, ⟨10, 3584, 512, 3072⟩, ⟨11, 3072, 1024, 2048⟩,
       ⟨12, 2048, 2048, 0⟩] : List AmortEntry).map AmortEntry.principal).sum = 4095 ∧
      (([⟨1, 4095, 1, 4094⟩, ⟨2, 4094, 2, 4092⟩, ⟨3, 4092, 4, 4088⟩, ⟨4, 4088, 8, 4080⟩,
         ⟨5, 4080, 16, 4064⟩, ⟨6, 4064, 32, 4032⟩, ⟨7, 4032, 64, 3968⟩, ⟨8, 3968, 128, 3840⟩,
         ⟨9, 3840, 256, 3584⟩, ⟨10, 3584, 512, 3072⟩, ⟨11, 3072, 1024, 2048⟩,
         ⟨12, 2048, 2048, 0⟩] : List AmortEntry).getLast?).map AmortEntry.balance = some 0 :=
  c5_schedule_totals 4095 12 1
    [⟨1, 4095, 1, 4094⟩, ⟨2, 4094, 2, 4092⟩, ⟨3, 4092, 4, 4088⟩, ⟨4, 4088, 8, 4080⟩,
     ⟨5, 4080, 16, 4064⟩, ⟨6, 4064, 32, 4032⟩, ⟨7, 4032, 64, 3968⟩, ⟨8, 3968, 128, 3840⟩,
     ⟨9, 3840, 256, 3584⟩, ⟨10, 3584, 512, 3072⟩, ⟨11, 3072, 1024, 2048⟩,
     ⟨12, 2048, 2048, 0⟩]
    (by norm_num) (by norm_num) (by norm_num)
    (by norm_num [calculate_mortgage_schedule, calculate_mortgage_payment, scheduleFrom])

set_option maxHeartbeats 1000000 in
/-- C6 witness: for the same concrete schedule, the balance before month 1
is the loan amount 4095 and the recorded balances decrease strictly from
it. -/
theorem c6_schedule_invariants_witness :
    ((([⟨1, 4095, 1, 4094⟩, ⟨2, 4094, 2, 4092⟩, ⟨3, 4092, 4, 4088⟩, ⟨4, 4088, 8, 4080⟩,
        ⟨5, 4080, 16, 4064⟩, ⟨6, 4064, 32, 4032⟩, ⟨7, 4032, 64, 3968⟩, ⟨8, 3968, 128, 3840⟩,
        ⟨9, 3840, 256, 3584⟩, ⟨10, 3584, 512, 3072⟩, ⟨11, 3072, 1024, 2048⟩,
        ⟨12, 2048, 2048, 0⟩] : List AmortEntry).head?).map
          (fun e => e.balance + e.principal) = some 4095) ∧
      List.Chain (fun a b => b < a) 4095
        (([⟨1, 4095, 1, 4094⟩, ⟨2, 4094, 2, 4092⟩, ⟨3, 4092, 4, 4088⟩, ⟨4, 4088, 8, 4080⟩,
           ⟨5, 4080, 16, 4064⟩, ⟨6, 4064, 32, 4032⟩, ⟨7, 4032, 64, 3968⟩, ⟨8, 3968, 128, 3840⟩,
           ⟨9, 3840, 256, 3584⟩, ⟨10, 3584, 512, 3072⟩, ⟨11, 3072, 1024, 2048⟩,
           ⟨12, 2048, 2048, 0⟩] : List AmortEntry).map AmortEntry.balance) :=
  (c6_schedule_invariants 4095 12 1 4096
    [⟨1, 4095, 1, 4094⟩, ⟨2, 4094, 2, 4092⟩, ⟨3, 4092, 4, 4088⟩, ⟨4, 4088, 8, 4080⟩,
     ⟨5, 4080, 16, 4064⟩, ⟨6, 4064, 32, 4032⟩, ⟨7, 4032, 64, 3968⟩, ⟨8, 3968, 128, 3840⟩,
     ⟨9, 3840, 256, 3584⟩, ⟨10, 3584, 512, 3072⟩, ⟨11, 3072, 1024, 2048⟩,
     ⟨12, 2048, 2048, 0⟩]
    (by norm_num) (by norm_num) (by norm_num)
    (by norm_num [calculate_mortgage_payment])
    (by norm_num [calculate_mortgage_schedule, calculate_mortgage_payment, scheduleFrom])).2
